import Mathlib

/-!
Verification development for the Sentry OAuth example server.

The definitions below are a shallow embedding of the JavaScript sources:

* `src/server/database.js`   — `SimpleUserStore` (`createUser`, `updateUser`,
  `findUserById`, `findUserBySentryId`, `findUserByEmail`, `getStats`);
  the JS `Map` objects are modelled as association lists (`Table`) with
  `tset` / `tget` / `tdel` mirroring `Map.set` / `Map.get` / `Map.delete`.
* `src/server/services/sentry-api.js` — `SentryOAuthService`
  (`getAuthorizationUrl`, `exchangeCodeForToken`, `getUserInfo`,
  `completeOAuthFlow`).  Network calls are modelled by passing the HTTP
  outcome (or a URL-indexed oracle of outcomes) as an explicit argument.
* `src/server/index.js` — the `/api/auth/callback` handler
  (`handleCallback`), the `/api/auth/me` handler (`authMe`, including the
  `requireAuth` middleware), and the `/api/demo/stats` route
  (`demoStatsRoute`).

JavaScript truthiness on strings (falsy exactly when absent or empty) is
modelled by `truthy : Option String → Bool`; `a || b` on such values is
`jsOr`.  Timestamps (`new Date().toISOString()`) are modelled as an
explicit `now : Nat` argument.  Avatar values
(`avatar?.avatarUrl || avatar`) are modelled as opaque optional strings,
collapsing the object-shaped avatar unwrapping, which no theorem below
depends on.
-/

/-- JS string truthiness: `undefined` and the empty string are falsy. -/
def truthy : Option String → Bool
  | none => false
  | some s => s ≠ ""

/-- JS `a || b` on optional strings. -/
def jsOr (a b : Option String) : Option String :=
  if truthy a then a else b

/-- JS `email.split('@')[0]`: the part of the string before the first `@`
(the whole string when there is no `@`). -/
def emailLocalPart (s : String) : String :=
  String.mk (s.data.takeWhile (fun c => c.toNat ≠ 64))

/-- Association-list model of a JS `Map`.  All stores manipulated by the
code keep at most one entry per key (`keysNodup` below), matching `Map`
semantics. -/
abbrev Table (α β : Type) : Type := List (α × β)

/-- Model of `Map.get`: first entry with the given key. -/
def tget {α β : Type} [DecidableEq α] (k : α) : Table α β → Option β
  | [] => none
  | (k', v) :: rest => if k' = k then some v else tget k rest

/-- Model of `Map.set`: replace the entry with the given key, or append a new one. -/
def tset {α β : Type} [DecidableEq α] (k : α) (v : β) : Table α β → Table α β
  | [] => [(k, v)]
  | (k', v') :: rest => if k' = k then (k, v) :: rest else (k', v') :: tset k v rest

/-- Model of `Map.delete`: remove the entry with the given key. -/
def tdel {α β : Type} [DecidableEq α] (k : α) : Table α β → Table α β
  | [] => []
  | (k', v') :: rest => if k' = k then rest else (k', v') :: tdel k rest

/-- The keys of a table are pairwise distinct (the `Map` representation
invariant). -/
def keysNodup {α β : Type} (l : Table α β) : Prop := (l.map Prod.fst).Nodup

theorem tget_tset_self {α β : Type} [DecidableEq α] (k : α) (v : β) (l : Table α β) :
    tget k (tset k v l) = some v := by
  induction l with
  | nil => simp [tget, tset]
  | cons p rest ih =>
    obtain ⟨k', v'⟩ := p
    by_cases h : k' = k <;> simp [tget, tset, h, ih]

theorem tget_tset_ne {α β : Type} [DecidableEq α] {k' k : α} (v : β) (l : Table α β)
    (h : k' ≠ k) : tget k' (tset k v l) = tget k' l := by
  have h2 : ¬ (k = k') := fun hh => h hh.symm
  induction l with
  | nil => simp [tget, tset, h2]
  | cons p rest ih =>
    obtain ⟨ka, va⟩ := p
    by_cases hk : ka = k
    · subst hk
      simp [tget, tset, h2]
    · simp [tset, hk, tget, ih]

theorem tget_mem {α β : Type} [DecidableEq α] {k : α} {v : β} {l : Table α β}
    (h : tget k l = some v) : (k, v) ∈ l := by
  induction l with
  | nil => simp [tget] at h
  | cons p rest ih =>
    obtain ⟨k', v'⟩ := p
    by_cases hk : k' = k
    · subst hk
      simp [tget] at h
      simp [h]
    · simp [tget, hk] at h
      exact List.mem_cons_of_mem _ (ih h)

theorem tget_eq_none_of_not_mem_keys {α β : Type} [DecidableEq α] {k : α} {l : Table α β}
    (h : k ∉ l.map Prod.fst) : tget k l = none := by
  cases hg : tget k l with
  | none => rfl
  | some v => exact absurd (List.mem_map_of_mem Prod.fst (tget_mem hg)) h

theorem mem_keys_tset {α β : Type} [DecidableEq α] {a k : α} {v : β} {l : Table α β}
    (h : a ∈ (tset k v l).map Prod.fst) : a = k ∨ a ∈ l.map Prod.fst := by
  induction l with
  | nil =>
    simp [tset] at h
    simp [h]
  | cons p rest ih =>
    obtain ⟨k', v'⟩ := p
    by_cases hk : k' = k
    · subst hk
      simp [tset] at h
      rcases h with h | h <;> simp [h]
    · simp only [tset, if_neg hk, List.map_cons, List.mem_cons] at h
      rcases h with h | h
      · simp [h]
      · rcases ih h with h' | h' <;> simp [h']

theorem keysNodup_tset {α β : Type} [DecidableEq α] {k : α} {v : β} {l : Table α β}
    (h : keysNodup l) : keysNodup (tset k v l) := by
  induction l with
  | nil => simp [keysNodup, tset]
  | cons p rest ih =>
    obtain ⟨k', v'⟩ := p
    simp only [keysNodup, List.map_cons, List.nodup_cons] at h
    by_cases hk : k' = k
    · subst hk
      simpa [keysNodup, tset] using h
    · have hrest := ih h.2
      simp only [keysNodup, tset, if_neg hk, List.map_cons, List.nodup_cons]
      refine ⟨?_, hrest⟩
      intro hmem
      rcases mem_keys_tset hmem with h' | h'
      · exact hk h'
      · exact h.1 h'

theorem mem_tset {α β : Type} [DecidableEq α] {p : α × β} {k : α} {v : β} {l : Table α β}
    (hnd : keysNodup l) (h : p ∈ tset k v l) : p = (k, v) ∨ (p ∈ l ∧ p.1 ≠ k) := by
  induction l with
  | nil =>
    simp [tset] at h
    simp [h]
  | cons q rest ih =>
    obtain ⟨k', v'⟩ := q
    simp only [keysNodup, List.map_cons, List.nodup_cons] at hnd
    by_cases hk : k' = k
    · subst hk
      simp [tset] at h
      rcases h with h | h
      · simp [h]
      · right
        refine ⟨List.mem_cons_of_mem _ h, ?_⟩
        intro hpk
        exact hnd.1 (hpk ▸ List.mem_map_of_mem Prod.fst h)
    · simp only [tset, if_neg hk, List.mem_cons] at h
      rcases h with h | h
      · right
        constructor
        · simp [h]
        · rw [h]
          exact hk
      · rcases ih hnd.2 h with h' | h'
        · simp [h']
        · exact Or.inr ⟨List.mem_cons_of_mem _ h'.1, h'.2⟩

theorem length_tset_some {α β : Type} [DecidableEq α] {k : α} {v v₀ : β} {l : Table α β}
    (h : tget k l = some v₀) : (tset k v l).length = l.length := by
  induction l with
  | nil => simp [tget] at h
  | cons q rest ih =>
    obtain ⟨k', v'⟩ := q
    by_cases hk : k' = k
    · simp [tset, hk]
    · simp [tget, hk] at h
      simp [tset, hk, ih h]

theorem length_tset_none {α β : Type} [DecidableEq α] {k : α} {v : β} {l : Table α β}
    (h : tget k l = none) : (tset k v l).length = l.length + 1 := by
  induction l with
  | nil => simp [tset]
  | cons q rest ih =>
    obtain ⟨k', v'⟩ := q
    by_cases hk : k' = k
    · simp [tget, hk] at h
    · simp [tget, hk] at h
      simp [tset, hk, ih h]

/-- Normalized user profile, the shape returned by
`SentryOAuthService.getUserInfo` / embedded in `completeOAuthFlow`
(`{id, email, name, username, avatar}`; `id`, `email`, `name` are
guaranteed non-empty strings by the validity guard). -/
structure Profile where
  id : String
  email : String
  name : String
  username : Option String
  avatar : Option String
deriving DecidableEq

/-- A record of `SimpleUserStore` (`database.js`): the object built by
`createUser` / `updateUser`. -/
structure StoredUser where
  id : Nat
  sentry_id : String
  email : String
  name : String
  username : Option String
  avatar_url : Option String
  access_token : String
  created_at : Nat
  updated_at : Nat
deriving DecidableEq

/-- The `SimpleUserStore` state: the three `Map` indexes and the `nextId`
counter (`database.js`, constructor). -/
structure Store where
  users : Table Nat StoredUser
  usersBySentryId : Table String StoredUser
  usersByEmail : Table String StoredUser
  nextId : Nat
deriving DecidableEq

/-- The `SimpleUserStore` initial state: empty maps, `nextId = 1`. -/
def emptyStore : Store := { users := [], usersBySentryId := [], usersByEmail := [], nextId := 1 }

/-- Embedding of `SimpleUserStore.findUserBySentryId`. -/
def findUserBySentryId (s : Store) (sentryId : String) : Option StoredUser :=
  tget sentryId s.usersBySentryId

/-- Embedding of `SimpleUserStore.findUserByEmail`. -/
def findUserByEmail (s : Store) (email : String) : Option StoredUser :=
  tget email s.usersByEmail

/-- Embedding of `SimpleUserStore.findUserById`. -/
def findUserById (s : Store) (id : Nat) : Option StoredUser :=
  tget id s.users

/-- Embedding of `SimpleUserStore.createUser`: build the record
with `id = nextId++` and insert it into all three indexes. -/
def createUser (s : Store) (sentryUser : Profile) (accessToken : String) (now : Nat) :
    StoredUser × Store :=
  let user : StoredUser :=
    { id := s.nextId
      sentry_id := sentryUser.id
      email := sentryUser.email
      name := sentryUser.name
      username := sentryUser.username
      avatar_url := sentryUser.avatar
      access_token := accessToken
      created_at := now
      updated_at := now }
  (user,
    { users := tset user.id user s.users
      usersBySentryId := tset user.sentry_id user s.usersBySentryId
      usersByEmail := tset user.email user s.usersByEmail
      nextId := s.nextId + 1 })

/-- Embedding of `SimpleUserStore.updateUser`: look up the
existing record by sentry id (throwing `User not found for update` when
absent), rebuild it with the fresh mutable fields, re-insert it into the
`users` and `usersBySentryId` indexes, and re-key the email index only
when the email changed. -/
def updateUser (s : Store) (sentryUser : Profile) (accessToken : String) (now : Nat) :
    Except String (StoredUser × Store) :=
  match tget sentryUser.id s.usersBySentryId with
  | none => .error "User not found for update"
  | some existingUser =>
    let updatedUser : StoredUser :=
      { existingUser with
        email := sentryUser.email
        name := sentryUser.name
        username := sentryUser.username
        avatar_url := sentryUser.avatar
        access_token := accessToken
        updated_at := now }
    let users1 := tset updatedUser.id updatedUser s.users
    let bySentry1 := tset updatedUser.sentry_id updatedUser s.usersBySentryId
    let byEmail1 :=
      if existingUser.email ≠ updatedUser.email then
        tset updatedUser.email updatedUser (tdel existingUser.email s.usersByEmail)
      else
        s.usersByEmail
    .ok (updatedUser,
      { users := users1
        usersBySentryId := bySentry1
        usersByEmail := byEmail1
        nextId := s.nextId })

/-- The upsert dispatch of the callback handler (`index.js`, step 4):
`findUserBySentryId` then `updateUser`, else `createUser`. -/
def upsertUser (s : Store) (sentryUser : Profile) (accessToken : String) (now : Nat) :
    Except String (StoredUser × Store) :=
  match findUserBySentryId s sentryUser.id with
  | some _ => updateUser s sentryUser accessToken now
  | none => .ok (createUser s sentryUser accessToken now)

/-- Store invariant maintained by the upsert path: unique keys in the
`users` and `usersBySentryId` indexes, every stored record keyed by its
own `id` with `id < nextId`, and the two indexes mutually consistent
(each record reachable under its own sentry id, each indexed record
present in `users`). -/
def StoreInv (s : Store) : Prop :=
  keysNodup s.users ∧ keysNodup s.usersBySentryId ∧
  (∀ p ∈ s.users, p.2.id = p.1 ∧ p.1 < s.nextId) ∧
  (∀ p ∈ s.users, tget p.2.sentry_id s.usersBySentryId = some p.2) ∧
  (∀ q ∈ s.usersBySentryId, q.2.sentry_id = q.1 ∧ tget q.2.id s.users = some q.2)

/-- The `SimpleUserStore.getStats` per-user projection: only `id`,
`sentry_id`, `email`, `name`, `created_at` are exposed. -/
structure StatsUser where
  id : Nat
  sentry_id : String
  email : String
  name : String
  created_at : Nat
deriving DecidableEq

/-- The value returned by `SimpleUserStore.getStats`. -/
structure Stats where
  totalUsers : Nat
  users : List StatsUser
deriving DecidableEq

/-- The projection applied to each stored user by `getStats`. -/
def statsProj (u : StoredUser) : StatsUser :=
  { id := u.id, sentry_id := u.sentry_id, email := u.email, name := u.name
    created_at := u.created_at }

/-- Embedding of `SimpleUserStore.getStats`. -/
def getStats (s : Store) : Stats :=
  { totalUsers := s.users.length
    users := s.users.map (fun p => statsProj p.2) }

/-- The body served by `GET /api/demo/stats` (`index.js`): the stats with
a fixed message field spread in front. -/
structure StatsResponse where
  message : String
  totalUsers : Nat
  users : List StatsUser
deriving DecidableEq

/-- Embedding of the `GET /api/demo/stats` handler. -/
def demoStatsRoute (s : Store) : StatsResponse :=
  { message := "Sentry OAuth Demo - User Storage Stats"
    totalUsers := (getStats s).totalUsers
    users := (getStats s).users }

/-- Uppercase hexadecimal digit for `n < 16`. -/
def hexUpper (n : Nat) : Char :=
  if n < 10 then Char.ofNat (48 + n) else Char.ofNat (55 + n)

/-- UTF-8 byte sequence of a Unicode code point (percent-encoding operates
on these bytes). -/
def utf8Bytes (n : Nat) : List Nat :=
  if n < 128 then [n]
  else if n < 2048 then [192 + n / 64, 128 + n % 64]
  else if n < 65536 then [224 + n / 4096, 128 + (n / 64) % 64, 128 + n % 64]
  else [240 + n / 262144, 128 + (n / 4096) % 64, 128 + (n / 64) % 64, 128 + n % 64]

/-- Percent-encode a byte list: `%XX` per byte, uppercase hex. -/
def pctEncodeBytes (bs : List Nat) : String :=
  bs.foldl (fun acc b => ((acc.push (Char.ofNat 37)).push (hexUpper (b / 16))).push (hexUpper (b % 16))) ""

/-- Characters `encodeURIComponent` leaves unescaped:
`A-Z a-z 0-9 - _ . ! ~ * ' ( )`. -/
def isUriUnreserved (c : Char) : Bool :=
  let n := c.toNat
  (97 ≤ n && n ≤ 122) || (65 ≤ n && n ≤ 90) || (48 ≤ n && n ≤ 57) ||
    n == 45 || n == 95 || n == 46 || n == 33 || n == 126 || n == 42 ||
    n == 39 || n == 40 || n == 41

/-- JS `encodeURIComponent`, used by the callback handler to place the
error message in the redirect URL. -/
def encodeURIComponent (s : String) : String :=
  s.data.foldl
    (fun acc c => if isUriUnreserved c then acc.push c else acc ++ pctEncodeBytes (utf8Bytes c.toNat))
    ""

/-- Characters the `application/x-www-form-urlencoded` serializer used by
`URLSearchParams.toString` leaves unescaped: `A-Z a-z 0-9 * - . _`
(space becomes `+`). -/
def isFormUnreserved (c : Char) : Bool :=
  let n := c.toNat
  (97 ≤ n && n ≤ 122) || (65 ≤ n && n ≤ 90) || (48 ≤ n && n ≤ 57) ||
    n == 42 || n == 45 || n == 46 || n == 95

/-- The `URLSearchParams` serialization of a single string. -/
def formEncode (s : String) : String :=
  s.data.foldl
    (fun acc c =>
      if isFormUnreserved c then acc.push c
      else if c.toNat = 32 then acc.push (Char.ofNat 43)
      else acc ++ pctEncodeBytes (utf8Bytes c.toNat))
    ""

/-- Model of `URLSearchParams.toString`: `k=v` pairs joined by `&`, both sides
form-encoded. -/
def serializeQuery (ps : List (String × String)) : String :=
  String.intercalate "&" (ps.map (fun p => formEncode p.1 ++ "=" ++ formEncode p.2))

/-- Configuration captured by the `SentryOAuthService` constructor. -/
structure OAuthConfig where
  clientId : String
  clientSecret : String
  redirectUri : String
  baseUrl : String
deriving DecidableEq

/-- The fixed space-delimited scope list of `getAuthorizationUrl`. -/
def oauthScope : String :=
  String.intercalate " " ["org:read", "project:read", "team:read", "member:read", "event:read"]

/-- The `URLSearchParams` built by `SentryOAuthService.getAuthorizationUrl`:
`response_type`, `client_id`, `redirect_uri`, `scope`, and `state`
appended only when the state string is truthy (non-empty). -/
def authorizationParams (cfg : OAuthConfig) (st : String) : List (String × String) :=
  let base := [("response_type", "code"), ("client_id", cfg.clientId),
               ("redirect_uri", cfg.redirectUri), ("scope", oauthScope)]
  if st ≠ "" then base ++ [("state", st)] else base

/-- Embedding of `SentryOAuthService.getAuthorizationUrl`: the serialized authorization
URL. -/
def getAuthorizationUrl (cfg : OAuthConfig) (st : String) : String :=
  cfg.baseUrl ++ "/oauth/authorize/?" ++ serializeQuery (authorizationParams cfg st)

/-- A user-data payload as parsed from a provider JSON response: every
field may be absent. -/
structure UserData where
  id : Option String
  email : Option String
  name : Option String
  username : Option String
  avatar : Option String
deriving DecidableEq

/-- The guard `userData.id && userData.email` (both present and
non-empty). -/
def validUserData (d : UserData) : Bool :=
  truthy d.id && truthy d.email

/-- The normalization applied to a valid payload:
`name: name || username || email.split('@')[0]`. -/
def normalizeUserData (d : UserData) : Profile :=
  { id := d.id.getD ""
    email := d.email.getD ""
    name := (jsOr d.name (jsOr d.username (some (emailLocalPart (d.email.getD ""))))).getD ""
    username := d.username
    avatar := d.avatar }

/-- Token-exchange response body (`tokenData`): the access token plus the
optional embedded user-info fields checked by `completeOAuthFlow`. -/
structure TokenData where
  access_token : String
  token_type : Option String
  scope : Option String
  refresh_token : Option String
  user : Option UserData
  user_info : Option UserData
  profile : Option UserData
deriving DecidableEq

/-- Outcome of the provider's token-endpoint POST as observed by
`exchangeCodeForToken`: a parsed success body, a non-ok HTTP response
(status and body text), or a transport error thrown by `fetch`. -/
inductive TokenHttpResult where
  | success (data : TokenData)
  | failure (status : Nat) (body : String)
  | network (errMsg : String)
deriving DecidableEq

/-- Embedding of `SentryOAuthService.exchangeCodeForToken`: on a non-ok response it
throws an `Error` whose message embeds the HTTP status and the response
body; a transport `Error` is rethrown unchanged. -/
def exchangeCodeForToken (r : TokenHttpResult) : Except String TokenData :=
  match r with
  | .success d => .ok d
  | .failure status body =>
      .error ("❌ Sentry token exchange failed: " ++ toString status ++ " " ++ body)
  | .network m => .error m

/-- Outcome of one profile-endpoint GET as observed by `getUserInfo`. -/
inductive FetchResult where
  | ok (data : UserData)
  | httpError (status : Nat) (body : String)
  | networkError (msg : String)
deriving DecidableEq

/-- The fixed ordered candidate endpoint list of
`SentryOAuthService.getUserInfo`. -/
def possibleEndpoints (baseUrl : String) : List String :=
  [baseUrl ++ "/oauth/userinfo",
   baseUrl ++ "/userinfo",
   baseUrl ++ "/oauth/userinfo/",
   baseUrl ++ "/userinfo/",
   baseUrl ++ "/api/0/user/",
   baseUrl ++ "/api/0/users/me/"]

/-- The endpoint loop of `getUserInfo`: try each candidate in order,
return the first HTTP-ok response whose payload passes the
`id && email` guard (normalized), remember the last error message
otherwise, and fail with the last error (or the fixed message) when all
candidates are exhausted. -/
def getUserInfoLoop : List (String × FetchResult) → Option String → Except String Profile
  | [], lastErr => .error (lastErr.getD "All Sentry user endpoints failed")
  | (url, r) :: rest, _ =>
    match r with
    | .ok d =>
        if validUserData d then .ok (normalizeUserData d)
        else getUserInfoLoop rest (some ("Invalid user data from " ++ url))
    | .httpError status body =>
        getUserInfoLoop rest (some (toString status ++ ": " ++ (body.take 200)))
    | .networkError m => getUserInfoLoop rest (some m)

/-- Embedding of `SentryOAuthService.getUserInfo`: run the loop over the fixed
candidate list, with the provider's behaviour given as a URL-indexed
oracle. -/
def getUserInfo (baseUrl : String) (responseFor : String → FetchResult) : Except String Profile :=
  getUserInfoLoop ((possibleEndpoints baseUrl).map (fun u => (u, responseFor u))) none

/-- The result shape of `completeOAuthFlow`. -/
structure FlowResult where
  user : Profile
  accessToken : String
deriving DecidableEq

/-- JS `a || b` on optional objects (an object is always truthy). -/
def jsOrData (a b : Option UserData) : Option UserData :=
  if a.isSome then a else b

/-- Embedding of `SentryOAuthService.completeOAuthFlow`: exchange the code, then — if
the token response carries `user`, `user_info` or `profile` and the
first such field passes the `id && email` guard — return the embedded
data without touching the profile endpoints; otherwise resolve the
profile via `getUserInfo` with the returned access token. -/
def completeOAuthFlow (baseUrl : String) (exchangeResult : Except String TokenData)
    (responseFor : String → FetchResult) : Except String FlowResult :=
  match exchangeResult with
  | .error e => .error e
  | .ok tokenResponse =>
    let fallback : Except String FlowResult :=
      (getUserInfo baseUrl responseFor).map
        (fun u => { user := u, accessToken := tokenResponse.access_token })
    match jsOrData tokenResponse.user (jsOrData tokenResponse.user_info tokenResponse.profile) with
    | some userInfo =>
      if truthy userInfo.id && truthy userInfo.email then
        .ok { user := { id := userInfo.id.getD ""
                        email := userInfo.email.getD ""
                        name := (jsOr userInfo.name (jsOr userInfo.username
                                  (some (emailLocalPart (userInfo.email.getD ""))))).getD ""
                        username := userInfo.username
                        avatar := userInfo.avatar }
              accessToken := tokenResponse.access_token }
      else fallback
    | none => fallback

/-- The per-browser session bag: the three keys the server reads/writes
(`oauthState`, `userId`, `sentryId`). -/
structure Session where
  oauthState : Option String
  userId : Option Nat
  sentryId : Option String
deriving DecidableEq

/-- A destroyed session (`req.session.destroy()`). -/
def emptySession : Session := { oauthState := none, userId := none, sentryId := none }

/-- Response sent by the callback handler: either a direct
`res.status(400).json({error})` body or a `res.redirect(url)`. -/
inductive CallbackOutcome where
  | badRequestJson (error : String)
  | redirect (url : String)
deriving DecidableEq

/-- Embedding of `GET /api/auth/callback` (`index.js`): validate the `state` query
parameter against the session (returning a direct 400 JSON body on
mismatch, before any deletion), delete the pending state, require a
`code` (400 JSON body otherwise), run `completeOAuthFlow`, upsert the
user, bind the session, and redirect to the frontend success page; any
error thrown from the flow or the upsert is caught and answered with a
redirect to the frontend error page carrying the URL-encoded message. -/
def handleCallback (frontendUrl baseUrl : String) (sess : Session) (store : Store)
    (codeQ stateQ : Option String) (tokenHttp : TokenHttpResult)
    (responseFor : String → FetchResult) (now : Nat) :
    CallbackOutcome × Session × Store :=
  if ¬ truthy stateQ ∨ stateQ ≠ sess.oauthState then
    (.badRequestJson "Invalid state parameter", sess, store)
  else if ¬ truthy codeQ then
    (.badRequestJson "Authorization code not provided", { sess with oauthState := none }, store)
  else
    match completeOAuthFlow baseUrl (exchangeCodeForToken tokenHttp) responseFor with
    | .error e =>
        (.redirect (frontendUrl ++ "/auth/error?message=" ++ encodeURIComponent e),
         { sess with oauthState := none }, store)
    | .ok flow =>
        match upsertUser store flow.user flow.accessToken now with
        | .error e =>
            (.redirect (frontendUrl ++ "/auth/error?message=" ++ encodeURIComponent e),
             { sess with oauthState := none }, store)
        | .ok (user, store1) =>
            (.redirect (frontendUrl ++ "/auth/success"),
             { sess with oauthState := none, userId := some user.id, sentryId := some flow.user.id },
             store1)

/-- The user object served by `GET /api/auth/me`: the stored record with
the `access_token` field destructured away. -/
structure SafeUser where
  id : Nat
  sentry_id : String
  email : String
  name : String
  username : Option String
  avatar_url : Option String
  created_at : Nat
  updated_at : Nat
deriving DecidableEq

/-- Model of the destructuring `const (access_token, ...safeUser) = user`. -/
def stripToken (u : StoredUser) : SafeUser :=
  { id := u.id, sentry_id := u.sentry_id, email := u.email, name := u.name
    username := u.username, avatar_url := u.avatar_url
    created_at := u.created_at, updated_at := u.updated_at }

/-- Response of `GET /api/auth/me`: 200 with the safe user, or 401 with
an error body. -/
inductive MeOutcome where
  | okUser (user : SafeUser)
  | unauthorized (error : String)
deriving DecidableEq

/-- Embedding of `GET /api/auth/me` (`index.js`): the `requireAuth` middleware rejects
a session without a truthy `userId` (401, session untouched); the
handler then looks the bound id up in the store — a missing record
destroys the session and answers 401, otherwise the user is returned
with the access token stripped. -/
def authMe (sess : Session) (store : Store) : MeOutcome × Session :=
  match sess.userId with
  | none => (.unauthorized "Authentication required", sess)
  | some uid =>
    if uid = 0 then
      (.unauthorized "Authentication required", sess)
    else
      match findUserById store uid with
      | none => (.unauthorized "User not found", emptySession)
      | some user => (.okUser (stripToken user), sess)

/-- Whether an endpoint outcome is an HTTP-successful response whose
payload passes the `id && email` guard (the loop's acceptance test). -/
def okValid : FetchResult → Bool
  | .ok d => validUserData d
  | _ => false

/-- Demo configuration used by concrete witnesses below. -/
def cfgDemo : OAuthConfig :=
  { clientId := "demo-client-id"
    clientSecret := "demo-secret"
    redirectUri := "http://localhost:3001/api/auth/callback"
    baseUrl := "https://sentry.io" }

/-- C4 (amended): for every **non-empty** state string, the authorization
query generated by `getAuthorizationUrl` contains `response_type=code`,
`client_id` and `redirect_uri` exactly matching the configuration, the
fixed space-delimited scope list, and a `state` parameter exactly equal to
the supplied argument; the serialized URL is the base URL's authorize
path followed by this query.  (The amendment: the code appends `state`
only when the string is truthy, so the empty string yields no `state`
parameter at all — see the counterexample.) -/
theorem authorization_url_params (cfg : OAuthConfig) (st : String) (h : st ≠ "") :
    (authorizationParams cfg st).lookup "response_type" = some "code" ∧
    (authorizationParams cfg st).lookup "client_id" = some cfg.clientId ∧
    (authorizationParams cfg st).lookup "redirect_uri" = some cfg.redirectUri ∧
    (authorizationParams cfg st).lookup "scope" = some oauthScope ∧
    (authorizationParams cfg st).lookup "state" = some st ∧
    getAuthorizationUrl cfg st =
      cfg.baseUrl ++ "/oauth/authorize/?" ++ serializeQuery (authorizationParams cfg st) := by
  refine ⟨?_, ?_, ?_, ?_, ?_, rfl⟩ <;> simp [authorizationParams, h, List.lookup]

theorem authorization_url_params_witness :
    (authorizationParams cfgDemo "demo-state").lookup "response_type" = some "code" ∧
    (authorizationParams cfgDemo "demo-state").lookup "client_id" = some cfgDemo.clientId ∧
    (authorizationParams cfgDemo "demo-state").lookup "redirect_uri" = some cfgDemo.redirectUri ∧
    (authorizationParams cfgDemo "demo-state").lookup "scope" = some oauthScope ∧
    (authorizationParams cfgDemo "demo-state").lookup "state" = some "demo-state" ∧
    getAuthorizationUrl cfgDemo "demo-state" =
      cfgDemo.baseUrl ++ "/oauth/authorize/?" ++ serializeQuery (authorizationParams cfgDemo "demo-state") :=
  authorization_url_params cfgDemo "demo-state" (by decide)

/-- C4 counterexample: with the empty input string — which the claim's
"for every input string state" includes — the generated query has no
`state` parameter at all, because `getAuthorizationUrl` appends `state`
only when the string is truthy. -/
theorem authorization_url_empty_state_cex :
    (authorizationParams cfgDemo "").lookup "state" = none := by
  decide

theorem getUserInfoLoop_append (pre post : List (String × FetchResult))
    (url : String) (d : UserData)
    (hpre : ∀ p ∈ pre, okValid p.2 = false) (hd : validUserData d = true) :
    ∀ le, getUserInfoLoop (pre ++ (url, .ok d) :: post) le = .ok (normalizeUserData d) := by
  induction pre with
  | nil =>
    intro le
    simp [getUserInfoLoop, hd]
  | cons q rest ih =>
    intro le
    obtain ⟨u1, r1⟩ := q
    have hq : okValid r1 = false := hpre (u1, r1) (List.mem_cons_self _ _)
    have hrest : ∀ p ∈ rest, okValid p.2 = false :=
      fun p hp => hpre p (List.mem_cons_of_mem _ hp)
    cases r1 with
    | ok d1 =>
      simp [okValid] at hq
      simp [getUserInfoLoop, hq, ih hrest]
    | httpError status body =>
      simp [getUserInfoLoop, ih hrest]
    | networkError m =>
      simp [getUserInfoLoop, ih hrest]

/-- C5: `getUserInfo` walks the fixed ordered candidate endpoint list and
returns the normalized profile of the first response that is
HTTP-successful with non-empty `id` and `email` (rejected candidates:
HTTP errors, transport errors, and ok-responses failing the guard); the
normalization defaults `name` to `username` and then to the local part of
`email`.  The witness instantiates the claim's concrete scenario:
endpoints one and two answer 404/401 and the third answers
`{id:"42", email:"a@b.com"}`, yielding `{id:"42", email:"a@b.com",
name:"a"}`. -/
theorem getUserInfo_first_valid (baseUrl : String) (responseFor : String → FetchResult)
    (pre post : List (String × FetchResult)) (url : String) (d : UserData)
    (hsplit : (possibleEndpoints baseUrl).map (fun u => (u, responseFor u)) =
      pre ++ (url, .ok d) :: post)
    (hpre : ∀ p ∈ pre, okValid p.2 = false)
    (hd : validUserData d = true) :
    getUserInfo baseUrl responseFor = .ok (normalizeUserData d) ∧
    (truthy d.name = false → truthy d.username = false →
      (normalizeUserData d).name = emailLocalPart (d.email.getD "")) := by
  constructor
  · rw [getUserInfo, hsplit]
    exact getUserInfoLoop_append pre post url d hpre hd none
  · intro hn hu
    simp [normalizeUserData, jsOr, hn, hu]

/-- Concrete provider behaviour for the C5 witness: 404, then 401, then a
valid minimal payload. -/
def demoUserData : UserData :=
  { id := some "42", email := some "a@b.com", name := none, username := none, avatar := none }

def demoResponseFor : String → FetchResult := fun u =>
  if u = "https://sentry.io/oauth/userinfo" then .httpError 404 "not found"
  else if u = "https://sentry.io/userinfo" then .httpError 401 "unauthorized"
  else .ok demoUserData

theorem getUserInfo_first_valid_witness :
    getUserInfo "https://sentry.io" demoResponseFor =
      .ok { id := "42", email := "a@b.com", name := "a", username := none, avatar := none } :=
  ((getUserInfo_first_valid "https://sentry.io" demoResponseFor
      [("https://sentry.io/oauth/userinfo", .httpError 404 "not found"),
       ("https://sentry.io/userinfo", .httpError 401 "unauthorized")]
      [("https://sentry.io/userinfo/", .ok demoUserData),
       ("https://sentry.io/api/0/user/", .ok demoUserData),
       ("https://sentry.io/api/0/users/me/", .ok demoUserData)]
      "https://sentry.io/oauth/userinfo/" demoUserData
      (by decide) (by decide) (by decide)).1).trans (by rfl)

/-- The embedded-field choice made by `completeOAuthFlow`:
`tokenResponse.user || tokenResponse.user_info || tokenResponse.profile`
(the **first present** field, regardless of its contents). -/
def embeddedUserInfo (t : TokenData) : Option UserData :=
  jsOrData t.user (jsOrData t.user_info t.profile)

/-- C7 (amended): `completeOAuthFlow` skips profile resolution if and only
if the **first present** field among `user`, `user_info`, `profile` in the
token response passes the `id && email` guard.  When it does, the result
is the normalized embedded data and is independent of the profile-endpoint
oracle (the resolution call is skipped entirely); otherwise — including
when a later embedded field would have been valid — the profile is
resolved through `getUserInfo` with the returned access token.  (The
amendment: the original claim's "under one of the known embedded field
names" is wrong because an invalid first-present field shadows a valid
later one — see the counterexample.) -/
theorem completeOAuthFlow_embedded_fast_path (baseUrl : String) (t : TokenData)
    (f g : String → FetchResult) :
    (∀ u, embeddedUserInfo t = some u → validUserData u = true →
      completeOAuthFlow baseUrl (.ok t) f =
        .ok { user := normalizeUserData u, accessToken := t.access_token } ∧
      completeOAuthFlow baseUrl (.ok t) f = completeOAuthFlow baseUrl (.ok t) g) ∧
    ((∀ u, embeddedUserInfo t = some u → validUserData u = false) →
      completeOAuthFlow baseUrl (.ok t) f =
        (getUserInfo baseUrl f).map (fun p => { user := p, accessToken := t.access_token })) := by
  constructor
  · intro u hu hv
    have h1 : completeOAuthFlow baseUrl (.ok t) f =
        .ok { user := normalizeUserData u, accessToken := t.access_token } := by
      rw [completeOAuthFlow, show jsOrData t.user (jsOrData t.user_info t.profile) =
            embeddedUserInfo t from rfl, hu]
      simp only [validUserData] at hv
      simp [hv, normalizeUserData]
    have h2 : completeOAuthFlow baseUrl (.ok t) g =
        .ok { user := normalizeUserData u, accessToken := t.access_token } := by
      rw [completeOAuthFlow, show jsOrData t.user (jsOrData t.user_info t.profile) =
            embeddedUserInfo t from rfl, hu]
      simp only [validUserData] at hv
      simp [hv, normalizeUserData]
    exact ⟨h1, h1.trans h2.symm⟩
  · intro hinv
    rw [completeOAuthFlow, show jsOrData t.user (jsOrData t.user_info t.profile) =
          embeddedUserInfo t from rfl]
    cases he : embeddedUserInfo t with
    | none => rfl
    | some u =>
      have hv := hinv u he
      simp only [validUserData] at hv
      simp [hv]

/-- Token response for the C7 witness: the first present embedded field
(`user`) is valid, so resolution is skipped. -/
def tokenEmbedded : TokenData :=
  { access_token := "T-embedded", token_type := none, scope := none, refresh_token := none
    user := some { id := some "7", email := some "e@h.io", name := some "E", username := none, avatar := none }
    user_info := none
    profile := none }

def oracleX : String → FetchResult := fun _ =>
  .ok { id := some "99", email := some "z@w.com", name := none, username := none, avatar := none }

def oracleY : String → FetchResult := fun _ =>
  .ok { id := some "77", email := some "q@r.com", name := none, username := none, avatar := none }

def embeddedDemoData : UserData :=
  { id := some "7", email := some "e@h.io", name := some "E", username := none, avatar := none }

theorem completeOAuthFlow_embedded_fast_path_witness :
    completeOAuthFlow "https://sentry.io" (.ok tokenEmbedded) oracleX =
      .ok { user := normalizeUserData embeddedDemoData, accessToken := tokenEmbedded.access_token } ∧
    completeOAuthFlow "https://sentry.io" (.ok tokenEmbedded) oracleX =
      completeOAuthFlow "https://sentry.io" (.ok tokenEmbedded) oracleY :=
  (completeOAuthFlow_embedded_fast_path "https://sentry.io" tokenEmbedded oracleX oracleY).1
    embeddedDemoData (by rfl) (by decide)

/-- The valid payload embedded under `profile` in `tokenShadowed`. -/
def shadowedProfileData : UserData :=
  { id := some "42", email := some "a@b.com", name := none, username := none, avatar := none }

/-- Token response refuting C7 as stated: `user` is present but lacks an
`id`, while `profile` embeds a perfectly valid `{id:"42",
email:"a@b.com"}`. -/
def tokenShadowed : TokenData :=
  { access_token := "T", token_type := none, scope := none, refresh_token := none
    user := some { id := none, email := some "x@y.com", name := none, username := none, avatar := none }
    user_info := none
    profile := some { id := some "42", email := some "a@b.com", name := none, username := none, avatar := none } }

/-- C7 counterexample: `tokenShadowed` embeds a profile with non-empty id
and email under the known field name `profile`, yet `completeOAuthFlow`
does **not** skip the profile-resolution call — its result still depends
on the endpoint oracle, because the invalid first-present field `user`
shadows the valid `profile` field. -/
theorem completeOAuthFlow_shadowed_embedded_cex :
    validUserData shadowedProfileData = true ∧
    tokenShadowed.profile = some shadowedProfileData ∧
    ¬ (completeOAuthFlow "https://sentry.io" (.ok tokenShadowed) oracleX =
       completeOAuthFlow "https://sentry.io" (.ok tokenShadowed) oracleY) := by
  refine ⟨by decide, by rfl, ?_⟩
  intro h
  have h1 : completeOAuthFlow "https://sentry.io" (.ok tokenShadowed) oracleX =
      .ok { user := { id := "99", email := "z@w.com", name := "z", username := none, avatar := none },
            accessToken := "T" } := by rfl
  have h2 : completeOAuthFlow "https://sentry.io" (.ok tokenShadowed) oracleY =
      .ok { user := { id := "77", email := "q@r.com", name := "q", username := none, avatar := none },
            accessToken := "T" } := by rfl
  rw [h1, h2] at h
  exact absurd (congrArg (fun r => match r with | .ok fr => fr.user.id | .error _ => "") h) (by decide)

/-- Replace only the stored access token. -/
def withToken (u : StoredUser) (tok : String) : StoredUser :=
  { u with access_token := tok }

/-- C9: the stats exposed by `getStats` (served unauthenticated at
`/api/demo/stats` via `demoStatsRoute`) report `totalUsers` equal to the
number of stored users and, per user, only the `id`, `sentry_id`,
`email`, `name`, `created_at` fields; a store differing only in
access-token values (every record rewritten by `withToken` with an
arbitrary replacement function) produces the identical output. -/
theorem getStats_token_independent (s t : Store) (newTok : Nat → StoredUser → String)
    (h : t.users = s.users.map (fun p => (p.1, withToken p.2 (newTok p.1 p.2)))) :
    getStats t = getStats s ∧
    demoStatsRoute t = demoStatsRoute s ∧
    (getStats s).totalUsers = s.users.length ∧
    (getStats s).users = s.users.map (fun p => statsProj p.2) := by
  have hlen : t.users.length = s.users.length := by
    rw [h, List.length_map]
  have hmap : t.users.map (fun p => statsProj p.2) = s.users.map (fun p => statsProj p.2) := by
    rw [h, List.map_map]
    rfl
  have hstats : getStats t = getStats s := by
    simp [getStats, hlen, hmap]
  exact ⟨hstats, by simp [demoStatsRoute, hstats], rfl, rfl⟩

def statsDemoUser : StoredUser :=
  { id := 1, sentry_id := "u1", email := "a@b.com", name := "A", username := none
    avatar_url := none, access_token := "tokA", created_at := 10, updated_at := 10 }

def statsDemoStoreA : Store :=
  { users := [(1, statsDemoUser)], usersBySentryId := [("u1", statsDemoUser)]
    usersByEmail := [("a@b.com", statsDemoUser)], nextId := 2 }

def statsDemoStoreB : Store :=
  { users := [(1, withToken statsDemoUser "tokB")]
    usersBySentryId := [("u1", withToken statsDemoUser "tokB")]
    usersByEmail := [("a@b.com", withToken statsDemoUser "tokB")], nextId := 2 }

theorem getStats_token_independent_witness :
    getStats statsDemoStoreB = getStats statsDemoStoreA ∧
    demoStatsRoute statsDemoStoreB = demoStatsRoute statsDemoStoreA ∧
    (getStats statsDemoStoreA).totalUsers = statsDemoStoreA.users.length ∧
    (getStats statsDemoStoreA).users = statsDemoStoreA.users.map (fun p => statsProj p.2) :=
  getStats_token_independent statsDemoStoreA statsDemoStoreB (fun _ _ => "tokB") (by rfl)

/-- C8: for every session, `GET /api/auth/me` answers 401 when the session
binds no user id; when it binds a (positive — ids are assigned from a
counter starting at 1) `localId` that exists in the directory it answers
200 with exactly the stored record minus the `access_token` field,
leaving the session untouched; and when the bound id has no matching
record it answers 401 and destroys the session. -/
theorem authMe_cases (sess : Session) (store : Store) :
    (sess.userId = none → authMe sess store = (.unauthorized "Authentication required", sess)) ∧
    (∀ uid, sess.userId = some uid → 0 < uid →
      (∀ u, findUserById store uid = some u →
        authMe sess store = (.okUser (stripToken u), sess)) ∧
      (findUserById store uid = none →
        authMe sess store = (.unauthorized "User not found", emptySession))) := by
  constructor
  · intro h
    simp [authMe, h]
  · intro uid h hpos
    have hz : ¬ (uid = 0) := Nat.pos_iff_ne_zero.mp hpos
    constructor
    · intro u hu
      simp [authMe, h, hz, hu]
    · intro hn
      simp [authMe, h, hz, hn]

def meDemoUser : StoredUser :=
  { id := 1, sentry_id := "m1", email := "m@e.org", name := "M", username := none
    avatar_url := none, access_token := "tokM", created_at := 3, updated_at := 4 }

def meDemoStore : Store :=
  { users := [(1, meDemoUser)], usersBySentryId := [("m1", meDemoUser)]
    usersByEmail := [("m@e.org", meDemoUser)], nextId := 2 }

theorem authMe_cases_witness :
    authMe { oauthState := none, userId := none, sentryId := none } meDemoStore =
      (.unauthorized "Authentication required", { oauthState := none, userId := none, sentryId := none }) ∧
    authMe { oauthState := none, userId := some 1, sentryId := none } meDemoStore =
      (.okUser (stripToken meDemoUser), { oauthState := none, userId := some 1, sentryId := none }) ∧
    authMe { oauthState := none, userId := some 5, sentryId := none } meDemoStore =
      (.unauthorized "User not found", emptySession) :=
  ⟨(authMe_cases { oauthState := none, userId := none, sentryId := none } meDemoStore).1 rfl,
   ((authMe_cases { oauthState := none, userId := some 1, sentryId := none } meDemoStore).2
      1 rfl (by decide)).1 meDemoUser rfl,
   ((authMe_cases { oauthState := none, userId := some 5, sentryId := none } meDemoStore).2
      5 rfl (by decide)).2 rfl⟩

theorem handleCallback_mismatch (frontendUrl baseUrl : String) (sess : Session) (store : Store)
    (codeQ stateQ : Option String) (tok : TokenHttpResult) (f : String → FetchResult) (t : Nat)
    (h : ¬ truthy stateQ ∨ stateQ ≠ sess.oauthState) :
    handleCallback frontendUrl baseUrl sess store codeQ stateQ tok f t =
      (.badRequestJson "Invalid state parameter", sess, store) := by
  unfold handleCallback
  rw [if_pos h]

theorem handleCallback_match_oauthState (frontendUrl baseUrl : String) (sess : Session)
    (store : Store) (codeQ stateQ : Option String) (tok : TokenHttpResult)
    (f : String → FetchResult) (t : Nat)
    (hs : truthy stateQ = true) (he : stateQ = sess.oauthState) :
    (handleCallback frontendUrl baseUrl sess store codeQ stateQ tok f t).2.1.oauthState = none := by
  have hcnot : ¬ (¬ truthy stateQ ∨ stateQ ≠ sess.oauthState) := by
    push_neg
    exact ⟨by simp [hs], he⟩
  unfold handleCallback
  rw [if_neg hcnot]
  by_cases hcode : ¬ truthy codeQ
  · rw [if_pos hcode]
  · rw [if_neg hcode]
    cases hfl : completeOAuthFlow baseUrl (exchangeCodeForToken tok) f with
    | error e => simp
    | ok flow =>
      cases hup : upsertUser store flow.user flow.accessToken t with
      | error e => simp [hup]
      | ok r =>
        obtain ⟨user, store1⟩ := r
        simp [hup]

/-- C1 (amended): the pending CSRF state is deleted by a callback
invocation **only when the received state matched** — on a mismatch the
handler returns the 400 response before the deletion, leaving the session
untouched; nevertheless, after any one callback invocation a second call
replaying the same `state` and `code` fails CSRF validation with the 400
Invalid-state response (the spec's `CsrfError`): a matching first call
consumed the state, and a mismatching first call left a state the replay
still fails to match. -/
theorem callback_state_single_use (frontendUrl baseUrl : String) (sess : Session) (store : Store)
    (codeQ stateQ : Option String) (tok tok' : TokenHttpResult)
    (f g : String → FetchResult) (t t' : Nat) :
    (truthy stateQ = true → stateQ = sess.oauthState →
      (handleCallback frontendUrl baseUrl sess store codeQ stateQ tok f t).2.1.oauthState = none) ∧
    (¬ (truthy stateQ = true ∧ stateQ = sess.oauthState) →
      handleCallback frontendUrl baseUrl sess store codeQ stateQ tok f t =
        (.badRequestJson "Invalid state parameter", sess, store)) ∧
    (handleCallback frontendUrl baseUrl
        (handleCallback frontendUrl baseUrl sess store codeQ stateQ tok f t).2.1
        (handleCallback frontendUrl baseUrl sess store codeQ stateQ tok f t).2.2
        codeQ stateQ tok' g t').1 = .badRequestJson "Invalid state parameter" := by
  by_cases hm : truthy stateQ = true ∧ stateQ = sess.oauthState
  · obtain ⟨hs, he⟩ := hm
    have h0 : (handleCallback frontendUrl baseUrl sess store codeQ stateQ tok f t).2.1.oauthState = none :=
      handleCallback_match_oauthState frontendUrl baseUrl sess store codeQ stateQ tok f t hs he
    refine ⟨fun _ _ => h0, fun hcon => absurd ⟨hs, he⟩ hcon, ?_⟩
    have hne : stateQ ≠ (handleCallback frontendUrl baseUrl sess store codeQ stateQ tok f t).2.1.oauthState := by
      rw [h0]
      cases stateQ with
      | none => simp [truthy] at hs
      | some s => simp
    exact congrArg Prod.fst (handleCallback_mismatch frontendUrl baseUrl _ _ codeQ stateQ tok' g t' (Or.inr hne))
  · have hcon : ¬ truthy stateQ ∨ stateQ ≠ sess.oauthState := by
      by_cases hs : truthy stateQ = true
      · right
        intro he
        exact hm ⟨hs, he⟩
      · left
        simpa using hs
    have heq := handleCallback_mismatch frontendUrl baseUrl sess store codeQ stateQ tok f t hcon
    refine ⟨fun hs he => absurd ⟨hs, he⟩ hm, fun _ => heq, ?_⟩
    rw [heq]
    exact congrArg Prod.fst (handleCallback_mismatch frontendUrl baseUrl sess store codeQ stateQ tok' g t' hcon)

/-- Oracle used by the concrete callback scenarios (never reached in
them). -/
def cbOracle : String → FetchResult := fun _ => .networkError "down"

theorem callback_state_single_use_witness :
    (handleCallback "http://localhost:5173" "https://sentry.io"
        { oauthState := some "S", userId := none, sentryId := none } emptyStore
        (some "C") (some "S") (.failure 400 "bad") cbOracle 7).2.1.oauthState = none ∧
    (handleCallback "http://localhost:5173" "https://sentry.io"
        (handleCallback "http://localhost:5173" "https://sentry.io"
          { oauthState := some "S", userId := none, sentryId := none } emptyStore
          (some "C") (some "S") (.failure 400 "bad") cbOracle 7).2.1
        (handleCallback "http://localhost:5173" "https://sentry.io"
          { oauthState := some "S", userId := none, sentryId := none } emptyStore
          (some "C") (some "S") (.failure 400 "bad") cbOracle 7).2.2
        (some "C") (some "S") (.failure 400 "bad") cbOracle 8).1 =
      .badRequestJson "Invalid state parameter" :=
  ⟨(callback_state_single_use "http://localhost:5173" "https://sentry.io"
      { oauthState := some "S", userId := none, sentryId := none } emptyStore
      (some "C") (some "S") (.failure 400 "bad") (.failure 400 "bad") cbOracle cbOracle 7 8).1
      (by decide) (by decide),
   (callback_state_single_use "http://localhost:5173" "https://sentry.io"
      { oauthState := some "S", userId := none, sentryId := none } emptyStore
      (some "C") (some "S") (.failure 400 "bad") (.failure 400 "bad") cbOracle cbOracle 7 8).2.2⟩

/-- C1 counterexample: a callback invocation whose received state does not
match leaves the pending state `S` in the session — the state is **not**
deleted regardless of match outcome. -/
theorem callback_state_kept_on_mismatch_cex :
    (handleCallback "http://localhost:5173" "https://sentry.io"
        { oauthState := some "S", userId := none, sentryId := none } emptyStore
        (some "C") (some "X") (.failure 400 "oops") cbOracle 0).2.1.oauthState = some "S" := by
  decide

/-- C2 (amended): errors thrown while completing the OAuth flow (token
exchange failures, network failures, profile-resolution failures — and
the directory's update-miss error) are answered with a redirect to the
frontend error page carrying the URL-encoded message; but the CSRF
mismatch and the missing authorization code are answered **directly with
a 400 JSON error body**, not with a redirect.  (The amendment: the
original claim's "never with a direct error-status response body" fails
for `CsrfError` and `MissingCodeError` — see the counterexample.) -/
theorem callback_error_channels (frontendUrl baseUrl : String) (sess : Session) (store : Store)
    (codeQ stateQ : Option String) (tok : TokenHttpResult) (f : String → FetchResult) (t : Nat) :
    (¬ truthy stateQ ∨ stateQ ≠ sess.oauthState →
      handleCallback frontendUrl baseUrl sess store codeQ stateQ tok f t =
        (.badRequestJson "Invalid state parameter", sess, store)) ∧
    (truthy stateQ = true → stateQ = sess.oauthState → truthy codeQ = false →
      handleCallback frontendUrl baseUrl sess store codeQ stateQ tok f t =
        (.badRequestJson "Authorization code not provided", { sess with oauthState := none }, store)) ∧
    (∀ e, truthy stateQ = true → stateQ = sess.oauthState → truthy codeQ = true →
      completeOAuthFlow baseUrl (exchangeCodeForToken tok) f = .error e →
      handleCallback frontendUrl baseUrl sess store codeQ stateQ tok f t =
        (.redirect (frontendUrl ++ "/auth/error?message=" ++ encodeURIComponent e),
         { sess with oauthState := none }, store)) := by
  refine ⟨handleCallback_mismatch frontendUrl baseUrl sess store codeQ stateQ tok f t, ?_, ?_⟩
  · intro hs he hcode
    have hcnot : ¬ (¬ truthy stateQ ∨ stateQ ≠ sess.oauthState) := by
      push_neg
      exact ⟨by simp [hs], he⟩
    unfold handleCallback
    rw [if_neg hcnot, if_pos (by simp [hcode])]
  · intro e hs he hcode hflow
    have hcnot : ¬ (¬ truthy stateQ ∨ stateQ ≠ sess.oauthState) := by
      push_neg
      exact ⟨by simp [hs], he⟩
    unfold handleCallback
    rw [if_neg hcnot, if_neg (by simp [hcode])]
    simp [hflow]

theorem callback_error_channels_witness :
    handleCallback "http://localhost:5173" "https://sentry.io"
        { oauthState := some "W", userId := none, sentryId := none } emptyStore
        (some "C") (some "Z") (.failure 400 "bad") cbOracle 0 =
      (.badRequestJson "Invalid state parameter",
       { oauthState := some "W", userId := none, sentryId := none }, emptyStore) ∧
    handleCallback "http://localhost:5173" "https://sentry.io"
        { oauthState := some "W", userId := none, sentryId := none } emptyStore
        none (some "W") (.failure 400 "bad") cbOracle 0 =
      (.badRequestJson "Authorization code not provided",
       { oauthState := none, userId := none, sentryId := none }, emptyStore) ∧
    handleCallback "http://localhost:5173" "https://sentry.io"
        { oauthState := some "W", userId := none, sentryId := none } emptyStore
        (some "C") (some "W") (.failure 401 "denied") cbOracle 0 =
      (.redirect ("http://localhost:5173" ++ "/auth/error?message=" ++
         encodeURIComponent "❌ Sentry token exchange failed: 401 denied"),
       { oauthState := none, userId := none, sentryId := none }, emptyStore) :=
  ⟨(callback_error_channels "http://localhost:5173" "https://sentry.io"
      { oauthState := some "W", userId := none, sentryId := none } emptyStore
      (some "C") (some "Z") (.failure 400 "bad") cbOracle 0).1 (by decide),
   (callback_error_channels "http://localhost:5173" "https://sentry.io"
      { oauthState := some "W", userId := none, sentryId := none } emptyStore
      none (some "W") (.failure 400 "bad") cbOracle 0).2.1 (by decide) (by decide) (by decide),
   (callback_error_channels "http://localhost:5173" "https://sentry.io"
      { oauthState := some "W", userId := none, sentryId := none } emptyStore
      (some "C") (some "W") (.failure 401 "denied") cbOracle 0).2.2
      "❌ Sentry token exchange failed: 401 denied" (by decide) (by decide) (by decide) (by rfl)⟩

/-- C2 counterexample: a callback without an authorization code — a
`MissingCodeError` in the spec's taxonomy — is answered with the direct
400 JSON body `Authorization code not provided`, not with a redirect to
the frontend error page. -/
theorem callback_missing_code_direct_400_cex :
    (handleCallback "http://localhost:5173" "https://sentry.io"
        { oauthState := some "S2", userId := none, sentryId := none } emptyStore
        none (some "S2") (.failure 400 "oops") cbOracle 0).1 =
      .badRequestJson "Authorization code not provided" := by
  decide

/-- C3 (amended): on a failing token exchange the callback redirects to
the frontend error page with the URL-encoded thrown message — but that
message embeds the provider's HTTP status **and raw response body**, so
the redirect URL is a function of the provider's error body and two runs
that differ only in that body produce different redirect URLs (see the
counterexample). -/
theorem callback_redirect_embeds_provider_body (frontendUrl baseUrl : String) (sess : Session)
    (store : Store) (codeQ stateQ : Option String) (status : Nat) (body : String)
    (f : String → FetchResult) (t : Nat)
    (hs : truthy stateQ = true) (he : stateQ = sess.oauthState) (hc : truthy codeQ = true) :
    handleCallback frontendUrl baseUrl sess store codeQ stateQ (.failure status body) f t =
      (.redirect (frontendUrl ++ "/auth/error?message=" ++
         encodeURIComponent ("❌ Sentry token exchange failed: " ++ toString status ++ " " ++ body)),
       { sess with oauthState := none }, store) := by
  have hcnot : ¬ (¬ truthy stateQ ∨ stateQ ≠ sess.oauthState) := by
    push_neg
    exact ⟨by simp [hs], he⟩
  unfold handleCallback
  rw [if_neg hcnot, if_neg (by simp [hc])]
  rfl

theorem callback_redirect_embeds_provider_body_witness :
    handleCallback "http://localhost:5173" "https://sentry.io"
        { oauthState := some "S4", userId := none, sentryId := none } emptyStore
        (some "C") (some "S4") (.failure 502 "upstream exploded") cbOracle 0 =
      (.redirect ("http://localhost:5173" ++ "/auth/error?message=" ++
         encodeURIComponent ("❌ Sentry token exchange failed: " ++ toString 502 ++ " " ++ "upstream exploded")),
       { oauthState := none, userId := none, sentryId := none }, emptyStore) :=
  callback_redirect_embeds_provider_body "http://localhost:5173" "https://sentry.io"
    { oauthState := some "S4", userId := none, sentryId := none } emptyStore
    (some "C") (some "S4") 502 "upstream exploded" cbOracle 0 (by decide) (by decide) (by decide)

/-- C3 counterexample: two failing callbacks that differ **only** in the
provider's error-response body produce different redirect URLs — the body
is URL-encoded into the redirect, not kept server-side. -/
theorem callback_redirect_depends_on_provider_body_cex :
    (handleCallback "http://localhost:5173" "https://sentry.io"
        { oauthState := some "S3", userId := none, sentryId := none } emptyStore
        (some "C") (some "S3") (.failure 400 "providerbodyA") cbOracle 0).1 ≠
    (handleCallback "http://localhost:5173" "https://sentry.io"
        { oauthState := some "S3", userId := none, sentryId := none } emptyStore
        (some "C") (some "S3") (.failure 400 "providerbodyB") cbOracle 0).1 := by
  decide

theorem createUser_spec (s : Store) (p : Profile) (tok : String) (now : Nat)
    (hInv : StoreInv s) (hfresh : tget p.id s.usersBySentryId = none) :
    StoreInv (createUser s p tok now).2 ∧
    (createUser s p tok now).1.id = s.nextId ∧
    (createUser s p tok now).2.users.length = s.users.length + 1 ∧
    (createUser s p tok now).2.nextId = s.nextId + 1 ∧
    tget p.id (createUser s p tok now).2.usersBySentryId = some (createUser s p tok now).1 ∧
    (createUser s p tok now).1.created_at = now ∧
    (createUser s p tok now).1.sentry_id = p.id := by
  obtain ⟨hnd1, hnd2, h3, h4, h5⟩ := hInv
  have hfreshid : tget s.nextId s.users = none := by
    cases hg : tget s.nextId s.users with
    | none => rfl
    | some v => exact absurd (h3 _ (tget_mem hg)).2 (lt_irrefl _)
  refine ⟨?_, rfl, length_tset_none hfreshid, rfl, tget_tset_self _ _ _, rfl, rfl⟩
  unfold StoreInv createUser
  dsimp only
  refine ⟨keysNodup_tset hnd1, keysNodup_tset hnd2, ?_, ?_, ?_⟩
  · intro q hq
    rcases mem_tset hnd1 hq with rfl | ⟨hq2, hne⟩
    · exact ⟨rfl, Nat.lt_succ_self _⟩
    · obtain ⟨ha, hb⟩ := h3 q hq2
      exact ⟨ha, Nat.lt_succ_of_lt hb⟩
  · intro q hq
    rcases mem_tset hnd1 hq with rfl | ⟨hq2, hne⟩
    · exact tget_tset_self _ _ _
    · have hsid : q.2.sentry_id ≠ p.id := by
        intro hh
        have h4q := h4 q hq2
        rw [hh, hfresh] at h4q
        exact Option.noConfusion h4q
      rw [tget_tset_ne _ _ hsid]
      exact h4 q hq2
  · intro r hr
    rcases mem_tset hnd2 hr with rfl | ⟨hr2, hne⟩
    · exact ⟨rfl, tget_tset_self _ _ _⟩
    · obtain ⟨hr5a, hr5b⟩ := h5 r hr2
      refine ⟨hr5a, ?_⟩
      have hlt : r.2.id < s.nextId := (h3 _ (tget_mem hr5b)).2
      rw [tget_tset_ne _ _ (Nat.ne_of_lt hlt)]
      exact hr5b

/-- The record rebuilt by `updateUser`: the existing user with the mutable
fields refreshed (`id`, `sentry_id`, `created_at` preserved). -/
def refreshUser (ex : StoredUser) (p : Profile) (tok : String) (now : Nat) : StoredUser :=
  { ex with email := p.email, name := p.name, username := p.username, avatar_url := p.avatar, access_token := tok, updated_at := now }

theorem updateUser_spec (s : Store) (p : Profile) (tok : String) (now : Nat)
    (ex upd : StoredUser) (s2 : Store)
    (hInv : StoreInv s) (hget : tget p.id s.usersBySentryId = some ex)
    (heq : updateUser s p tok now = .ok (upd, s2)) :
    upd = refreshUser ex p tok now ∧
    s2.nextId = s.nextId ∧
    s2.users.length = s.users.length ∧
    StoreInv s2 ∧
    tget p.id s2.usersBySentryId = some upd := by
  obtain ⟨hnd1, hnd2, h3, h4, h5⟩ := hInv
  have hmem := tget_mem hget
  obtain ⟨hexsid, hexusers⟩ := h5 _ hmem
  have hexlt : ex.id < s.nextId := (h3 _ (tget_mem hexusers)).2
  unfold updateUser at heq
  rw [hget] at heq
  simp only [Except.ok.injEq, Prod.mk.injEq] at heq
  obtain ⟨hu, hs⟩ := heq
  subst hu
  subst hs
  dsimp only at hexsid hexusers hexlt ⊢
  refine ⟨rfl, rfl, length_tset_some hexusers, ?_, ?_⟩
  · unfold StoreInv
    dsimp only
    refine ⟨keysNodup_tset hnd1, keysNodup_tset hnd2, ?_, ?_, ?_⟩
    · intro q hq
      rcases mem_tset hnd1 hq with rfl | ⟨hq2, hne⟩
      · exact ⟨rfl, hexlt⟩
      · exact h3 q hq2
    · intro q hq
      rcases mem_tset hnd1 hq with rfl | ⟨hq2, hne⟩
      · exact tget_tset_self _ _ _
      · have hsid : q.2.sentry_id ≠ ex.sentry_id := by
          intro hh
          have h4q := h4 q hq2
          rw [hh, hexsid, hget] at h4q
          have hq2ex : q.2 = ex := (Option.some.inj h4q).symm
          exact hne (((h3 q hq2).1.symm).trans (by rw [hq2ex]))
        rw [tget_tset_ne _ _ hsid]
        exact h4 q hq2
    · intro r hr
      rcases mem_tset hnd2 hr with rfl | ⟨hr2, hne⟩
      · exact ⟨rfl, tget_tset_self _ _ _⟩
      · obtain ⟨hr5a, hr5b⟩ := h5 r hr2
        refine ⟨hr5a, ?_⟩
        have hrid : r.2.id ≠ ex.id := by
          intro hh
          rw [hh, hexusers] at hr5b
          have hrex : r.2 = ex := (Option.some.inj hr5b).symm
          exact hne (hr5a.symm.trans (by rw [hrex]))
        rw [tget_tset_ne _ _ hrid]
        exact hr5b
  · have hkey : ((refreshUser ex p tok now).sentry_id : String) = p.id := hexsid
    rw [show tset ({ ex with email := p.email, name := p.name, username := p.username, avatar_url := p.avatar, access_token := tok, updated_at := now } : StoredUser).sentry_id ({ ex with email := p.email, name := p.name, username := p.username, avatar_url := p.avatar, access_token := tok, updated_at := now } : StoredUser) s.usersBySentryId = tset p.id (refreshUser ex p tok now) s.usersBySentryId from by rw [← hkey]; rfl]
    exact tget_tset_self _ _ _

theorem storeInv_unique (s : Store) (hInv : StoreInv s) :
    ∀ q ∈ s.users, ∀ r ∈ s.users, q.2.sentry_id = r.2.sentry_id → q = r := by
  obtain ⟨_, _, h3, h4, _⟩ := hInv
  intro q hq r hr he
  have hq4 := h4 q hq
  have hr4 := h4 r hr
  rw [he] at hq4
  rw [hq4] at hr4
  have h22 : q.2 = r.2 := Option.some.inj hr4
  have h11 : q.1 = r.1 := by
    rw [← (h3 q hq).1, ← (h3 r hr).1, h22]
  exact Prod.ext h11 h22

/-- C6: starting from an invariant-satisfying store with no record for the
profile's provider id, running the upsert dispatch twice in sequence with
the identical profile creates exactly one record: the first call assigns
`localId = nextId` (fresh — no existing entry carries it), the second
call keeps the same `localId` and `createdAt` while refreshing
`updatedAt` (and the mutable fields / token), the directory grows by one
on the first call and not at all on the second, the store invariant holds
after both calls, `nextId` is monotone, and the resulting store has
exactly one record per distinct provider id. -/
theorem upsert_idempotent (s0 : Store) (p : Profile) (tok : String) (t1 t2 : Nat)
    (u1 u2 : StoredUser) (s1 s2 : Store)
    (hInv : StoreInv s0) (hfresh : findUserBySentryId s0 p.id = none)
    (h1 : upsertUser s0 p tok t1 = .ok (u1, s1))
    (h2 : upsertUser s1 p tok t2 = .ok (u2, s2)) :
    u2.id = u1.id ∧
    u1.id = s0.nextId ∧
    (∀ q ∈ s0.users, q.1 ≠ u1.id) ∧
    s1.users.length = s0.users.length + 1 ∧
    s2.users.length = s1.users.length ∧
    u2.updated_at = t2 ∧
    u2.created_at = u1.created_at ∧
    u2.access_token = tok ∧
    StoreInv s1 ∧ StoreInv s2 ∧
    s0.nextId ≤ s1.nextId ∧ s1.nextId ≤ s2.nextId ∧
    (∀ q ∈ s2.users, ∀ r ∈ s2.users, q.2.sentry_id = r.2.sentry_id → q = r) := by
  have hfresh' : tget p.id s0.usersBySentryId = none := hfresh
  obtain ⟨hInv1, hid1, hlen1, hnext1, hsome1, hcreated1, hsid1⟩ :=
    createUser_spec s0 p tok t1 hInv hfresh'
  unfold upsertUser at h1
  rw [show findUserBySentryId s0 p.id = none from hfresh] at h1
  simp only [Except.ok.injEq] at h1
  have hu1 : (createUser s0 p tok t1).1 = u1 := by rw [h1]
  have hs1 : (createUser s0 p tok t1).2 = s1 := by rw [h1]
  rw [hs1] at hInv1 hlen1 hnext1 hsome1
  rw [hu1] at hid1 hsome1 hcreated1 hsid1
  have hsome1' : findUserBySentryId s1 p.id = some u1 := hsome1
  unfold upsertUser at h2
  rw [hsome1'] at h2
  obtain ⟨hupd, hnext2, hlen2, hInv2, _⟩ :=
    updateUser_spec s1 p tok t2 u1 u2 s2 hInv1 hsome1 h2
  have hlt0 : ∀ q ∈ s0.users, q.1 < s0.nextId := by
    obtain ⟨_, _, h3, _, _⟩ := hInv
    exact fun q hq => (h3 q hq).2
  refine ⟨?_, hid1, ?_, hlen1, hlen2, ?_, ?_, ?_, hInv1, hInv2, ?_, ?_, storeInv_unique s2 hInv2⟩
  · rw [hupd]
    rfl
  · intro q hq
    rw [hid1]
    exact Nat.ne_of_lt (hlt0 q hq)
  · rw [hupd]
    rfl
  · rw [hupd]
    rfl
  · rw [hupd]
    rfl
  · rw [hnext1]
    exact Nat.le_succ _
  · rw [hnext2]

def upsertDemoProfile : Profile :=
  { id := "u1", email := "a@b.com", name := "A", username := none, avatar := none }

def upsertDemoUser1 : StoredUser :=
  { id := 1, sentry_id := "u1", email := "a@b.com", name := "A", username := none
    avatar_url := none, access_token := "T", created_at := 10, updated_at := 10 }

def upsertDemoUser2 : StoredUser :=
  { id := 1, sentry_id := "u1", email := "a@b.com", name := "A", username := none
    avatar_url := none, access_token := "T", created_at := 10, updated_at := 20 }

def upsertDemoStore1 : Store :=
  { users := [(1, upsertDemoUser1)], usersBySentryId := [("u1", upsertDemoUser1)]
    usersByEmail := [("a@b.com", upsertDemoUser1)], nextId := 2 }

def upsertDemoStore2 : Store :=
  { users := [(1, upsertDemoUser2)], usersBySentryId := [("u1", upsertDemoUser2)]
    usersByEmail := [("a@b.com", upsertDemoUser1)], nextId := 2 }

theorem upsert_idempotent_witness :
    upsertDemoUser2.id = upsertDemoUser1.id ∧
    upsertDemoUser1.id = emptyStore.nextId ∧
    (∀ q ∈ emptyStore.users, q.1 ≠ upsertDemoUser1.id) ∧
    upsertDemoStore1.users.length = emptyStore.users.length + 1 ∧
    upsertDemoStore2.users.length = upsertDemoStore1.users.length ∧
    upsertDemoUser2.updated_at = 20 ∧
    upsertDemoUser2.created_at = upsertDemoUser1.created_at ∧
    upsertDemoUser2.access_token = "T" ∧
    StoreInv upsertDemoStore1 ∧ StoreInv upsertDemoStore2 ∧
    emptyStore.nextId ≤ upsertDemoStore1.nextId ∧
    upsertDemoStore1.nextId ≤ upsertDemoStore2.nextId ∧
    (∀ q ∈ upsertDemoStore2.users, ∀ r ∈ upsertDemoStore2.users,
      q.2.sentry_id = r.2.sentry_id → q = r) :=
  upsert_idempotent emptyStore upsertDemoProfile "T" 10 20
    upsertDemoUser1 upsertDemoUser2 upsertDemoStore1 upsertDemoStore2
    (by refine ⟨?_, ?_, ?_, ?_, ?_⟩ <;> simp [keysNodup, emptyStore])
    (by rfl) (by rfl) (by rfl)

/-- C10: creating a user whose email equals the email of an already-stored
user with a different provider id overwrites the by-email index entry:
`findUserByEmail` afterwards returns the newly created user (which is a
different record — its `localId` is the fresh `nextId`), while the older
user remains reachable by `localId` and by provider id but is no longer
reachable by email under any key. -/
theorem createUser_email_index_overwrite (s0 : Store) (oldU : StoredUser) (p : Profile)
    (tok : String) (now : Nat)
    (hEmail : findUserByEmail s0 p.email = some oldU)
    (hDiff : oldU.sentry_id ≠ p.id)
    (hById : findUserById s0 oldU.id = some oldU)
    (hBySid : findUserBySentryId s0 oldU.sentry_id = some oldU)
    (hIdLt : oldU.id < s0.nextId)
    (hOnly : ∀ e, findUserByEmail s0 e = some oldU → e = p.email) :
    findUserByEmail (createUser s0 p tok now).2 p.email = some (createUser s0 p tok now).1 ∧
    (createUser s0 p tok now).1.id = s0.nextId ∧
    (createUser s0 p tok now).1 ≠ oldU ∧
    findUserById (createUser s0 p tok now).2 oldU.id = some oldU ∧
    findUserBySentryId (createUser s0 p tok now).2 oldU.sentry_id = some oldU ∧
    (∀ e, findUserByEmail (createUser s0 p tok now).2 e ≠ some oldU) := by
  have hne : (createUser s0 p tok now).1 ≠ oldU := by
    intro hh
    have : (createUser s0 p tok now).1.id = oldU.id := by rw [hh]
    rw [show (createUser s0 p tok now).1.id = s0.nextId from rfl] at this
    exact absurd this.symm (Nat.ne_of_lt hIdLt)
  refine ⟨tget_tset_self _ _ _, rfl, hne, ?_, ?_, ?_⟩
  · unfold findUserById createUser
    dsimp only
    rw [tget_tset_ne _ _ (Nat.ne_of_lt hIdLt)]
    exact hById
  · unfold findUserBySentryId createUser
    dsimp only
    rw [tget_tset_ne _ _ hDiff]
    exact hBySid
  · intro e
    unfold findUserByEmail createUser
    dsimp only
    by_cases he : e = p.email
    · subst he
      rw [tget_tset_self]
      intro hh
      exact hne (Option.some.inj hh)
    · rw [tget_tset_ne _ _ he]
      intro hh
      exact he (hOnly e hh)

def emailDemoOldUser : StoredUser :=
  { id := 1, sentry_id := "sid1", email := "a@b.com", name := "Old", username := none
    avatar_url := none, access_token := "tokOld", created_at := 1, updated_at := 1 }

def emailDemoStore : Store :=
  { users := [(1, emailDemoOldUser)], usersBySentryId := [("sid1", emailDemoOldUser)]
    usersByEmail := [("a@b.com", emailDemoOldUser)], nextId := 2 }

def emailDemoNewProfile : Profile :=
  { id := "sid2", email := "a@b.com", name := "New", username := none, avatar := none }

theorem createUser_email_index_overwrite_witness :
    findUserByEmail (createUser emailDemoStore emailDemoNewProfile "tokNew" 9).2 "a@b.com" =
      some (createUser emailDemoStore emailDemoNewProfile "tokNew" 9).1 ∧
    (createUser emailDemoStore emailDemoNewProfile "tokNew" 9).1.id = emailDemoStore.nextId ∧
    (createUser emailDemoStore emailDemoNewProfile "tokNew" 9).1 ≠ emailDemoOldUser ∧
    findUserById (createUser emailDemoStore emailDemoNewProfile "tokNew" 9).2 emailDemoOldUser.id =
      some emailDemoOldUser ∧
    findUserBySentryId (createUser emailDemoStore emailDemoNewProfile "tokNew" 9).2
      emailDemoOldUser.sentry_id = some emailDemoOldUser ∧
    (∀ e, findUserByEmail (createUser emailDemoStore emailDemoNewProfile "tokNew" 9).2 e ≠
      some emailDemoOldUser) := by
  have hOnly : ∀ e, findUserByEmail emailDemoStore e = some emailDemoOldUser →
      e = emailDemoNewProfile.email := by
    intro e he
    by_cases h : "a@b.com" = e
    · exact h.symm
    · simp only [findUserByEmail, emailDemoStore, tget, if_neg h] at he
      exact Option.noConfusion he
  exact createUser_email_index_overwrite emailDemoStore emailDemoOldUser emailDemoNewProfile
    "tokNew" 9 (by rfl) (by decide) (by rfl) (by rfl) (by decide) hOnly
